import Mathlib

/-!
Verification of the edubridge tutor-booking REST server (src/index.js).

The store is modelled as three lists of records (tutors, bookings, users).
Mongo primitives (`findOne`, `updateOne`, `deleteOne`) are modelled as
first-match list operations, `ObjectId.isValid` as the 24-character-hex
check, and `new ObjectId(id)` as hex normalisation to lower case.  Each
route handler of src/index.js is translated into a Lean function from the
request data and the current store to a status code, response data and the
next store.  JavaScript truthiness of the string-valued required fields is
modelled by `truthyStr` (absent or empty string is falsy).
-/

/-- `ObjectId.isValid` on a string: exactly 24 hexadecimal characters. -/
def isHexChar (c : Char) : Bool :=
  c.isDigit || (97 ≤ c.toNat && c.toNat ≤ 102) || (65 ≤ c.toNat && c.toNat ≤ 70)

def isValidObjectId (s : String) : Bool :=
  s.length == 24 && s.toList.all isHexChar

/-- Character-wise lower-casing of a string (the behaviour of JavaScript's
`toLowerCase` on the ASCII strings handled here). -/
def lowerStr (s : String) : String := String.mk (s.toList.map Char.toLower)

/-- `new ObjectId(id)`: the canonical (lower-case) form of a hex id, as the
driver serialises ObjectIds in lower case. -/
def normId (s : String) : String := lowerStr s

/-- JavaScript truthiness of an optional string field (`!x` in the source):
absent (`undefined`) and the empty string are falsy. -/
def truthyStr : Option String → Bool
  | none => false
  | some s => !(s == "")

structure Tutor where
  _id : String
  tutorName : String
  language : String
  price : Int
  description : String
  image : String
  review : Nat
  createdAt : Nat
deriving Repr, DecidableEq

structure Booking where
  _id : String
  tutorId : String
  userEmail : String
  bookedAt : String
  reviewed : Bool
  createdAt : Nat
deriving Repr, DecidableEq

structure User where
  _id : String
  name : String
  email : String
  role : String
  createdAt : Nat
deriving Repr, DecidableEq

/-- The document store: the three collections of tutorsDB. -/
structure Store where
  tutors : List Tutor
  bookings : List Booking
  users : List User
deriving Repr, DecidableEq

/-- Result of a Mongo `updateOne`: the collection afterwards plus the
matched and modified counts (first match only is updated). -/
structure UpdateResult (α : Type) where
  list : List α
  matchedCount : Nat
  modifiedCount : Nat
deriving Repr

def updateOne {α : Type} [DecidableEq α] (p : α → Bool) (f : α → α) :
    List α → UpdateResult α
  | [] => ⟨[], 0, 0⟩
  | x :: xs =>
    if p x then ⟨f x :: xs, 1, if f x = x then 0 else 1⟩
    else
      let r := updateOne p f xs
      ⟨x :: r.list, r.matchedCount, r.modifiedCount⟩

/-- Result of a Mongo `deleteOne`: the collection afterwards plus the
deleted count (first match only is removed). -/
structure DeleteResult (α : Type) where
  list : List α
  deletedCount : Nat
deriving Repr

def deleteOne {α : Type} (p : α → Bool) : List α → DeleteResult α
  | [] => ⟨[], 0⟩
  | x :: xs =>
    if p x then ⟨xs, 1⟩
    else
      let r := deleteOne p xs
      ⟨x :: r.list, r.deletedCount⟩

/-! ## Route handlers (src/index.js) -/

/-- Body of a `POST /tutors` request; absent fields are `none`. -/
structure TutorReqBody where
  tutorName : Option String
  language : Option String
  price : Option Int
  description : Option String
  image : Option String

/-- Response of a handler that only reports a status and mutates the store. -/
structure StatusStore where
  status : Nat
  store : Store
deriving Repr, DecidableEq

/-- `app.post('/tutors')`: 400 when `!tutorName || !language || price == null`,
otherwise insert `{tutorName, language, price: Number(price), description
or "", image or "", review: 0, createdAt: now}` and answer 201. -/
def postTutors (s : Store) (body : TutorReqBody) (newId : String) (now : Nat) :
    StatusStore :=
  if !truthyStr body.tutorName || !truthyStr body.language || body.price.isNone
  then ⟨400, s⟩
  else
    let t : Tutor :=
      { _id := newId
        tutorName := body.tutorName.getD ""
        language := body.language.getD ""
        price := body.price.getD 0
        description := body.description.getD ""
        image := body.image.getD ""
        review := 0
        createdAt := now }
    ⟨201, { s with tutors := s.tutors ++ [t] }⟩

/-- Outcome of `GET /tutors/:id`. -/
inductive GetTutorRes where
  | badRequest
  | notFound
  | ok (t : Tutor)
deriving Repr, DecidableEq

def GetTutorRes.status : GetTutorRes → Nat
  | .badRequest => 400
  | .notFound => 404
  | .ok _ => 200

/-- `app.get('/tutors/:id')`: 400 on invalid id, 404 when `findOne` misses,
otherwise 200 with the record. -/
def getTutorById (s : Store) (id : String) : GetTutorRes :=
  if !isValidObjectId id then .badRequest
  else
    match s.tutors.find? (fun t => t._id == normId id) with
    | none => .notFound
    | some t => .ok t

/-- Response of `DELETE /tutors/:id`: status, deletedCount and next store. -/
structure DeleteTutorRes where
  status : Nat
  deletedCount : Nat
  store : Store
deriving Repr, DecidableEq

/-- `app.delete('/tutors/:id')`: 400 on invalid id, otherwise `deleteOne`
and a 200 answer carrying the deleted count, whatever it is. -/
def deleteTutor (s : Store) (id : String) : DeleteTutorRes :=
  if !isValidObjectId id then ⟨400, 0, s⟩
  else
    let r := deleteOne (fun t => t._id == normId id) s.tutors
    ⟨200, r.deletedCount, { s with tutors := r.list }⟩

/-- A booking enriched by the aggregation `$project` of
`GET /bookings/:email` (no `createdAt` in the projection). -/
structure EnrichedBooking where
  _id : String
  tutorId : String
  userEmail : String
  bookedAt : String
  reviewed : Bool
  tutorName : String
  language : String
  price : Int
  image : String
deriving Repr, DecidableEq

def enrich (b : Booking) (t : Tutor) : EnrichedBooking :=
  ⟨b._id, b.tutorId, b.userEmail, b.bookedAt, b.reviewed,
   t.tutorName, t.language, t.price, t.image⟩

/-- `app.get('/bookings/:email')`: the pipeline
`$match (userEmail) → $lookup (tutors on tutorId = _id) → $unwind → $project`.
`$unwind` drops bookings whose lookup array is empty. -/
def getBookingsByEmail (s : Store) (email : String) : List EnrichedBooking :=
  (s.bookings.filter (fun b => b.userEmail == email)).flatMap
    (fun b => (s.tutors.filter (fun t => t._id == b.tutorId)).map (enrich b))

/-- `app.patch('/bookings/reviewed/:id')` with failure injection on the
second write: 400 on invalid id, 404 when the booking is absent, 400 when
it is already reviewed; otherwise first set `reviewed := true` on the
booking, then — unless that is where the storage layer throws — `$inc` the
referenced tutor's `review` by 1 and answer 200.  A throw after the first
write is caught and answered 500, the first write left in place. -/
def patchBookingReviewedCore (s : Store) (id : String)
    (secondWriteFails : Bool) : StatusStore :=
  if !isValidObjectId id then ⟨400, s⟩
  else
    match s.bookings.find? (fun b => b._id == normId id) with
    | none => ⟨404, s⟩
    | some booking =>
      if booking.reviewed then ⟨400, s⟩
      else
        let bookings1 :=
          (updateOne (fun b => b._id == normId id)
            (fun b => { b with reviewed := true }) s.bookings).list
        let s1 := { s with bookings := bookings1 }
        if secondWriteFails then ⟨500, s1⟩
        else
          let tutors1 :=
            (updateOne (fun t => t._id == booking.tutorId)
              (fun t => { t with review := t.review + 1 }) s.tutors).list
          ⟨200, { s1 with tutors := tutors1 }⟩

/-- `app.patch('/bookings/reviewed/:id')`, the normal (no storage error)
execution. -/
def patchBookingReviewed (s : Store) (id : String) : StatusStore :=
  patchBookingReviewedCore s id false

/-- Body of a `POST /users` request. -/
structure UserReqBody where
  name : Option String
  email : Option String
  role : Option String

/-- `app.post('/users')`: 400 when `!name || !email`, 409 when `findOne`
on the email hits, otherwise insert with
`role: (role || 'user').toLowerCase()` and answer 201. -/
def postUsers (s : Store) (body : UserReqBody) (newId : String) (now : Nat) :
    StatusStore :=
  if !truthyStr body.name || !truthyStr body.email then ⟨400, s⟩
  else
    match s.users.find? (fun u => u.email == body.email.getD "") with
    | some _ => ⟨409, s⟩
    | none =>
      let rawRole := if truthyStr body.role then body.role.getD "" else "user"
      let u : User :=
        { _id := newId
          name := body.name.getD ""
          email := body.email.getD ""
          role := lowerStr rawRole
          createdAt := now }
      ⟨201, { s with users := s.users ++ [u] }⟩

/-- Response of `PATCH /users/:id`: status, modifiedCount, next store. -/
structure PatchUserRes where
  status : Nat
  modifiedCount : Nat
  store : Store
deriving Repr, DecidableEq

/-- `app.patch('/users/:id')`: 400 on invalid id or falsy role, otherwise
`updateOne` setting `role: role.toLowerCase()` and a 200 answer with the
modified count, whatever it is. -/
def patchUserRole (s : Store) (id : String) (role : Option String) :
    PatchUserRes :=
  if !isValidObjectId id then ⟨400, 0, s⟩
  else if !truthyStr role then ⟨400, 0, s⟩
  else
    let r := updateOne (fun u => u._id == normId id)
      (fun u => { u with role := lowerStr (role.getD "") }) s.users
    ⟨200, r.modifiedCount, { s with users := r.list }⟩

/-! ## Helper lemmas on the store primitives -/

theorem updateOne_of_forall_not {α : Type} [DecidableEq α]
    (p : α → Bool) (f : α → α) (l : List α)
    (h : ∀ x ∈ l, p x = false) : updateOne p f l = ⟨l, 0, 0⟩ := by
  induction l with
  | nil => rfl
  | cons x xs ih =>
    have hx : p x = false := h x (by simp)
    have hxs := ih (fun y hy => h y (by simp [hy]))
    simp [updateOne, hx, hxs]

theorem find?_updateOne {α : Type} [DecidableEq α]
    (p : α → Bool) (f : α → α) (l : List α) (x : α)
    (hfind : l.find? p = some x) (hpf : p (f x) = true) :
    ((updateOne p f l).list).find? p = some (f x) := by
  induction l with
  | nil => simp at hfind
  | cons y ys ih =>
    by_cases hy : p y = true
    · have hxy : y = x := by
        have : (y :: ys).find? p = some y := by simp [List.find?, hy]
        rw [this] at hfind; exact Option.some.inj hfind
      subst hxy
      simp [updateOne, hy, List.find?, hpf]
    · have hy' : p y = false := by simpa using hy
      have hfind' : ys.find? p = some x := by
        simpa [List.find?, hy'] using hfind
      have := ih hfind'
      simp [updateOne, hy', List.find?, this]

theorem deleteOne_count {α : Type} (p : α → Bool) (l : List α) :
    (deleteOne p l).deletedCount = if l.any p then 1 else 0 := by
  induction l with
  | nil => simp [deleteOne]
  | cons x xs ih =>
    by_cases hx : p x = true
    · simp [deleteOne, hx]
    · have hx' : p x = false := by simpa using hx
      simp [deleteOne, hx', ih]

theorem isValidObjectId_iff (s : String) :
    isValidObjectId s = true ↔
      (s.length = 24 ∧ ∀ c ∈ s.toList, isHexChar c = true) := by
  simp [isValidObjectId, List.all_eq_true]

/-! ## Claim theorems -/

/-- Claim C7: for every store state and every `DELETE /tutors/:id` request,
the bookings collection after the operation is identical to the bookings
collection before it — deleting a tutor never removes or modifies any
booking, including bookings whose tutorId references the deleted tutor. -/
theorem C7_delete_tutor_preserves_bookings (s : Store) (id : String) :
    (deleteTutor s id).store.bookings = s.bookings := by
  unfold deleteTutor
  split <;> rfl

/-- Claim C6: for every syntactically valid id, `DELETE /tutors/:id`
answers 200 with deletedCount 1 when a tutor with that id existed and 0
when none did — 200 in both cases, never 404; an invalid id answers 400. -/
theorem C6_delete_tutor_status (s : Store) (id : String) :
    (isValidObjectId id = true →
      (deleteTutor s id).status = 200 ∧
      ((∃ t ∈ s.tutors, t._id = normId id) →
        (deleteTutor s id).deletedCount = 1) ∧
      ((∀ t ∈ s.tutors, t._id ≠ normId id) →
        (deleteTutor s id).deletedCount = 0)) ∧
    (isValidObjectId id = false → (deleteTutor s id).status = 400) := by
  constructor
  · intro hv
    refine ⟨by simp [deleteTutor, hv], ?_, ?_⟩
    · rintro ⟨t, ht, hid⟩
      have hany : s.tutors.any (fun t => t._id == normId id) = true :=
        List.any_eq_true.mpr ⟨t, ht, by simp [hid]⟩
      simp [deleteTutor, hv, deleteOne_count, hany]
    · intro hnone
      have hany : s.tutors.any (fun t => t._id == normId id) = false := by
        rw [Bool.eq_false_iff]
        intro h
        obtain ⟨t, ht, hp⟩ := List.any_eq_true.mp h
        exact hnone t ht (by simpa using hp)
      simp [deleteTutor, hv, deleteOne_count, hany]
  · intro hv
    simp [deleteTutor, hv]

def storeC6 : Store :=
  ⟨[⟨"0123456789abcdef01234567", "Ana", "Spanish", 20, "", "", 0, 0⟩], [], []⟩

theorem C6_delete_tutor_status_witness :
    (deleteTutor storeC6 "0123456789abcdef01234567").status = 200 ∧
    (deleteTutor storeC6 "0123456789abcdef01234567").deletedCount = 1 ∧
    (deleteTutor storeC6 "ffffffffffffffffffffffff").deletedCount = 0 ∧
    (deleteTutor storeC6 "zz").status = 400 :=
  ⟨((C6_delete_tutor_status storeC6 "0123456789abcdef01234567").1
      (by decide)).1,
   ((C6_delete_tutor_status storeC6 "0123456789abcdef01234567").1
      (by decide)).2.1 (by decide),
   ((C6_delete_tutor_status storeC6 "ffffffffffffffffffffffff").1
      (by decide)).2.2 (by decide),
   (C6_delete_tutor_status storeC6 "zz").2 (by decide)⟩

/-- Claim C2: a string that is not a 24-character hexadecimal identifier
makes `GET /tutors/:id` answer 400 (never 404); a syntactically valid id
absent from the tutors collection answers 404; a present id answers 200
with the stored record. -/
theorem C2_get_tutor_id (s : Store) (id : String) :
    (¬ (id.length = 24 ∧ ∀ c ∈ id.toList, isHexChar c = true) →
      getTutorById s id = GetTutorRes.badRequest) ∧
    ((id.length = 24 ∧ ∀ c ∈ id.toList, isHexChar c = true) →
      (s.tutors.find? (fun t => t._id == normId id) = none →
        getTutorById s id = GetTutorRes.notFound) ∧
      (∀ t, s.tutors.find? (fun t => t._id == normId id) = some t →
        getTutorById s id = GetTutorRes.ok t)) := by
  constructor
  · intro h
    have hv : isValidObjectId id = false := by
      rw [Bool.eq_false_iff]
      intro hvt
      exact h ((isValidObjectId_iff id).mp hvt)
    simp [getTutorById, hv]
  · intro h
    have hv : isValidObjectId id = true := (isValidObjectId_iff id).mpr h
    exact ⟨fun hf => by simp [getTutorById, hv, hf],
           fun t hf => by simp [getTutorById, hv, hf]⟩

def storeC2 : Store :=
  ⟨[⟨"0123456789abcdef01234567", "Ana", "Spanish", 20, "", "", 0, 0⟩], [], []⟩

theorem C2_get_tutor_id_witness :
    getTutorById storeC2 "not-an-objectid" = GetTutorRes.badRequest ∧
    getTutorById storeC2 "ffffffffffffffffffffffff" = GetTutorRes.notFound ∧
    getTutorById storeC2 "0123456789abcdef01234567" =
      GetTutorRes.ok ⟨"0123456789abcdef01234567", "Ana", "Spanish", 20, "", "", 0, 0⟩ :=
  ⟨(C2_get_tutor_id storeC2 "not-an-objectid").1 (by decide),
   ((C2_get_tutor_id storeC2 "ffffffffffffffffffffffff").2 (by decide)).1
     (by decide),
   ((C2_get_tutor_id storeC2 "0123456789abcdef01234567").2 (by decide)).2 _
     (by decide)⟩

/-- Claim C4: a `POST /tutors` body with truthy tutorName and language and
non-null price answers 201 and appends a record with review 0, the numeric
price and createdAt set to now; a body missing one of them answers 400 and
inserts nothing. -/
theorem C4_post_tutors (s : Store) (body : TutorReqBody) (newId : String)
    (now : Nat) :
    ((truthyStr body.tutorName = true ∧ truthyStr body.language = true ∧
        body.price ≠ none) →
      (postTutors s body newId now).status = 201 ∧
      ∃ t : Tutor, (postTutors s body newId now).store.tutors = s.tutors ++ [t] ∧
        t.review = 0 ∧ body.price = some t.price ∧ t.createdAt = now) ∧
    ((truthyStr body.tutorName = false ∨ truthyStr body.language = false ∨
        body.price = none) →
      (postTutors s body newId now).status = 400 ∧
      (postTutors s body newId now).store = s) := by
  constructor
  · rintro ⟨h1, h2, h3⟩
    cases hp : body.price with
    | none => exact absurd hp h3
    | some p =>
      refine ⟨by simp [postTutors, h1, h2, hp], ?_⟩
      exact ⟨⟨newId, body.tutorName.getD "", body.language.getD "", p,
        body.description.getD "", body.image.getD "", 0, now⟩,
        by simp [postTutors, h1, h2, hp], rfl, by simp [hp], rfl⟩
  · intro h
    rcases h with h | h | h
    · exact ⟨by simp [postTutors, h], by simp [postTutors, h]⟩
    · exact ⟨by simp [postTutors, h], by simp [postTutors, h]⟩
    · exact ⟨by simp [postTutors, h, Option.isNone_iff_eq_none],
             by simp [postTutors, h, Option.isNone_iff_eq_none]⟩

def storeC4 : Store := ⟨[], [], []⟩

def bodyC4 : TutorReqBody := ⟨some "Ana", some "Spanish", some 20, none, none⟩

def bodyC4bad : TutorReqBody := ⟨some "Ana", some "Spanish", none, none, none⟩

theorem C4_post_tutors_witness :
    ((postTutors storeC4 bodyC4 "0123456789abcdef01234567" 5).status = 201 ∧
      ∃ t : Tutor,
        (postTutors storeC4 bodyC4 "0123456789abcdef01234567" 5).store.tutors =
          storeC4.tutors ++ [t] ∧
        t.review = 0 ∧ bodyC4.price = some t.price ∧ t.createdAt = 5) ∧
    ((postTutors storeC4 bodyC4bad "0123456789abcdef01234567" 5).status = 400 ∧
      (postTutors storeC4 bodyC4bad "0123456789abcdef01234567" 5).store = storeC4) :=
  ⟨(C4_post_tutors storeC4 bodyC4 "0123456789abcdef01234567" 5).1 (by decide),
   (C4_post_tutors storeC4 bodyC4bad "0123456789abcdef01234567" 5).2
     (Or.inr (Or.inr (by decide)))⟩

/-- Claim C3: two sequential `POST /users` with the same email (truthy name
and email, no prior record of the email): the first answers 201 and appends
one record with the role lowercased (default "user"), the second answers
409 and inserts nothing, so exactly one record for the email remains. -/
theorem C3_duplicate_user_registration (s : Store) (b1 b2 : UserReqBody)
    (email id1 id2 : String) (n1 n2 : Nat)
    (h1n : truthyStr b1.name = true) (h2n : truthyStr b2.name = true)
    (h1e : b1.email = some email) (h2e : b2.email = some email)
    (hemail : email ≠ "") (hrole : b1.role ≠ some "")
    (hnone : s.users.countP (fun u => u.email == email) = 0) :
    (postUsers s b1 id1 n1).status = 201 ∧
    (∃ u : User, (postUsers s b1 id1 n1).store.users = s.users ++ [u] ∧
      u.email = email ∧ u.role = (b1.role.map lowerStr).getD "user") ∧
    (postUsers (postUsers s b1 id1 n1).store b2 id2 n2).status = 409 ∧
    (postUsers (postUsers s b1 id1 n1).store b2 id2 n2).store =
      (postUsers s b1 id1 n1).store ∧
    ((postUsers (postUsers s b1 id1 n1).store b2 id2 n2).store.users.countP
      (fun u => u.email == email)) = 1 := by
  have hbe : (email == "") = false := by simpa using hemail
  have h1et : truthyStr (some email) = true := by simp [truthyStr, hbe]
  have h2et : truthyStr (some email) = true := h1et
  have hall : ∀ u ∈ s.users, (u.email == email) = false := by
    intro u hu
    simpa using List.countP_eq_zero.mp hnone u hu
  have hfind1 : s.users.find? (fun u => u.email == email) = none :=
    List.find?_eq_none.mpr (fun u hu => by simp [hall u hu])
  have hstep1 : postUsers s b1 id1 n1 = ⟨201,
      { s with users := s.users ++
        [⟨id1, b1.name.getD "", email,
          lowerStr (if truthyStr b1.role then b1.role.getD "" else "user"),
          n1⟩] }⟩ := by
    simp [postUsers, h1n, h1e, h1et, hfind1]
  have hrole1 :
      lowerStr (if truthyStr b1.role then b1.role.getD "" else "user") =
        (b1.role.map lowerStr).getD "user" := by
    cases hr : b1.role with
    | none => decide
    | some r =>
      have hr' : r ≠ "" := fun h => hrole (by rw [hr, h])
      have : (r == "") = false := by simpa using hr'
      simp [truthyStr, this]
  have hstep2 : postUsers
      ({ s with users := s.users ++
        [⟨id1, b1.name.getD "", email,
          lowerStr (if truthyStr b1.role then b1.role.getD "" else "user"),
          n1⟩] } : Store) b2 id2 n2 = ⟨409,
      { s with users := s.users ++
        [⟨id1, b1.name.getD "", email,
          lowerStr (if truthyStr b1.role then b1.role.getD "" else "user"),
          n1⟩] }⟩ := by
    simp [postUsers, h2n, h2e, h2et, List.find?_append, hfind1]
  rw [hstep1, hstep2]
  refine ⟨rfl, ⟨_, rfl, rfl, hrole1⟩, rfl, rfl, ?_⟩
  simp [List.countP_append, hnone, List.countP_cons]

def storeC3 : Store := ⟨[], [], []⟩

def bodyC3 : UserReqBody := ⟨some "Bob", some "b@c.d", some "Admin"⟩

theorem C3_duplicate_user_registration_witness :
    (postUsers storeC3 bodyC3 "aaaaaaaaaaaaaaaaaaaaaaaa" 1).status = 201 ∧
    (∃ u : User,
      (postUsers storeC3 bodyC3 "aaaaaaaaaaaaaaaaaaaaaaaa" 1).store.users =
        storeC3.users ++ [u] ∧
      u.email = "b@c.d" ∧ u.role = (bodyC3.role.map lowerStr).getD "user") ∧
    (postUsers (postUsers storeC3 bodyC3 "aaaaaaaaaaaaaaaaaaaaaaaa" 1).store
      bodyC3 "cccccccccccccccccccccccc" 2).status = 409 ∧
    (postUsers (postUsers storeC3 bodyC3 "aaaaaaaaaaaaaaaaaaaaaaaa" 1).store
      bodyC3 "cccccccccccccccccccccccc" 2).store =
      (postUsers storeC3 bodyC3 "aaaaaaaaaaaaaaaaaaaaaaaa" 1).store ∧
    ((postUsers (postUsers storeC3 bodyC3 "aaaaaaaaaaaaaaaaaaaaaaaa" 1).store
      bodyC3 "cccccccccccccccccccccccc" 2).store.users.countP
      (fun u => u.email == "b@c.d")) = 1 :=
  C3_duplicate_user_registration storeC3 bodyC3 bodyC3 "b@c.d"
    "aaaaaaaaaaaaaaaaaaaaaaaa" "cccccccccccccccccccccccc" 1 2
    (by decide) (by decide) (by decide) (by decide) (by decide) (by decide)
    (by decide)

/-- Claim C10: `PATCH /users/:id` with a valid id and a truthy role always
answers 200 with a modifiedCount (0 when no user matches — never 404), and
when a user matches, its stored role becomes the supplied role lowercased. -/
theorem C10_patch_user_role (s : Store) (id : String) (role : String)
    (hvalid : isValidObjectId id = true) (hrole : role ≠ "") :
    (patchUserRole s id (some role)).status = 200 ∧
    (s.users.find? (fun u => u._id == normId id) = none →
      (patchUserRole s id (some role)).modifiedCount = 0 ∧
      (patchUserRole s id (some role)).store = s) ∧
    (∀ u, s.users.find? (fun u => u._id == normId id) = some u →
      ((patchUserRole s id (some role)).store.users.find?
        (fun v => v._id == normId id)) =
        some { u with role := lowerStr role }) := by
  have hbr : (role == "") = false := by simpa using hrole
  have htr : truthyStr (some role) = true := by simp [truthyStr, hbr]
  refine ⟨by simp [patchUserRole, hvalid, htr], ?_, ?_⟩
  · intro hf
    have hall : ∀ u ∈ s.users, (u._id == normId id) = false := by
      intro u hu
      simpa using List.find?_eq_none.mp hf u hu
    have hupd := updateOne_of_forall_not (fun u => u._id == normId id)
      (fun u => { u with role := lowerStr role }) s.users hall
    exact ⟨by simp [patchUserRole, hvalid, htr, hupd],
           by simp [patchUserRole, hvalid, htr, hupd]⟩
  · intro u hf
    have hpf : ((({ u with role := lowerStr role } :
        User))._id == normId id) = true := by
      simpa using List.find?_some hf
    have hfd := find?_updateOne (fun v => v._id == normId id)
      (fun v => { v with role := lowerStr role }) s.users u hf hpf
    simp [patchUserRole, hvalid, htr, hfd]

def storeC10 : Store :=
  ⟨[], [], [⟨"abcdefabcdefabcdefabcdef", "Bob", "b@c.d", "user", 0⟩]⟩

theorem C10_patch_user_role_witness :
    (patchUserRole storeC10 "abcdefabcdefabcdefabcdef" (some "Admin")).status
      = 200 ∧
    ((patchUserRole storeC10 "abcdefabcdefabcdefabcdef"
        (some "Admin")).store.users.find?
      (fun v => v._id == normId "abcdefabcdefabcdefabcdef")) =
      some ⟨"abcdefabcdefabcdefabcdef", "Bob", "b@c.d", "admin", 0⟩ ∧
    (patchUserRole storeC10 "bbbbbbbbbbbbbbbbbbbbbbbb"
      (some "Admin")).modifiedCount = 0 := by
  refine ⟨(C10_patch_user_role storeC10 "abcdefabcdefabcdefabcdef" "Admin"
      (by decide) (by decide)).1, ?_,
    ((C10_patch_user_role storeC10 "bbbbbbbbbbbbbbbbbbbbbbbb" "Admin"
      (by decide) (by decide)).2.1 (by decide)).1⟩
  have h := (C10_patch_user_role storeC10 "abcdefabcdefabcdefabcdef" "Admin"
    (by decide) (by decide)).2.2
    ⟨"abcdefabcdefabcdefabcdef", "Bob", "b@c.d", "user", 0⟩ (by decide)
  rw [h]
  decide

/-- Claim C1: on an unreviewed booking with a valid id whose tutor exists,
`PATCH /bookings/reviewed/:id` answers 200, sets the booking's reviewed
flag and increments the referenced tutor's review counter by exactly 1; a
second identical request answers 400 and changes nothing. -/
theorem C1_review_workflow (s : Store) (id : String) (b : Booking) (t : Tutor)
    (hvalid : isValidObjectId id = true)
    (hb : s.bookings.find? (fun x => x._id == normId id) = some b)
    (hunrev : b.reviewed = false)
    (ht : s.tutors.find? (fun x => x._id == b.tutorId) = some t) :
    (patchBookingReviewed s id).status = 200 ∧
    ((patchBookingReviewed s id).store.bookings.find?
      (fun x => x._id == normId id)) = some { b with reviewed := true } ∧
    ((patchBookingReviewed s id).store.tutors.find?
      (fun x => x._id == b.tutorId)) = some { t with review := t.review + 1 } ∧
    (patchBookingReviewed (patchBookingReviewed s id).store id).status = 400 ∧
    (patchBookingReviewed (patchBookingReviewed s id).store id).store =
      (patchBookingReviewed s id).store := by
  have hpb : (b._id == normId id) = true := by
    have h := List.find?_some hb
    simpa using h
  have hpb' : (({ b with reviewed := true } : Booking)._id == normId id)
      = true := hpb
  have hpt : (t._id == b.tutorId) = true := by
    have h := List.find?_some ht
    simpa using h
  have hpt' : (({ t with review := t.review + 1 } : Tutor)._id == b.tutorId)
      = true := hpt
  have hbfind := find?_updateOne (fun x => x._id == normId id)
    (fun x => { x with reviewed := true }) s.bookings b hb hpb'
  have htfind := find?_updateOne (fun x => x._id == b.tutorId)
    (fun x => { x with review := x.review + 1 }) s.tutors t ht hpt'
  have hstep1 : patchBookingReviewed s id = ⟨200,
      { s with
        bookings := (updateOne (fun x => x._id == normId id)
          (fun x => { x with reviewed := true }) s.bookings).list,
        tutors := (updateOne (fun x => x._id == b.tutorId)
          (fun x => { x with review := x.review + 1 }) s.tutors).list }⟩ := by
    simp [patchBookingReviewed, patchBookingReviewedCore, hvalid, hb, hunrev]
  refine ⟨by rw [hstep1], by rw [hstep1]; exact hbfind,
    by rw [hstep1]; exact htfind, ?_, ?_⟩
  · rw [hstep1]
    simp [patchBookingReviewed, patchBookingReviewedCore, hvalid, hbfind]
  · rw [hstep1]
    simp [patchBookingReviewed, patchBookingReviewedCore, hvalid, hbfind]

def tutorC1 : Tutor := ⟨"aaaaaaaaaaaaaaaaaaaaaaaa", "Ana", "Spanish", 20, "", "", 3, 0⟩

def bookingC1 : Booking :=
  ⟨"bbbbbbbbbbbbbbbbbbbbbbbb", "aaaaaaaaaaaaaaaaaaaaaaaa", "u@e.com",
   "2024-01-01", false, 0⟩

def storeC1 : Store := ⟨[tutorC1], [bookingC1], []⟩

theorem C1_review_workflow_witness :
    (patchBookingReviewed storeC1 "bbbbbbbbbbbbbbbbbbbbbbbb").status = 200 ∧
    ((patchBookingReviewed storeC1 "bbbbbbbbbbbbbbbbbbbbbbbb").store.bookings.find?
      (fun x => x._id == normId "bbbbbbbbbbbbbbbbbbbbbbbb")) =
      some { bookingC1 with reviewed := true } ∧
    ((patchBookingReviewed storeC1 "bbbbbbbbbbbbbbbbbbbbbbbb").store.tutors.find?
      (fun x => x._id == bookingC1.tutorId)) =
      some { tutorC1 with review := tutorC1.review + 1 } ∧
    (patchBookingReviewed
      (patchBookingReviewed storeC1 "bbbbbbbbbbbbbbbbbbbbbbbb").store
      "bbbbbbbbbbbbbbbbbbbbbbbb").status = 400 ∧
    (patchBookingReviewed
      (patchBookingReviewed storeC1 "bbbbbbbbbbbbbbbbbbbbbbbb").store
      "bbbbbbbbbbbbbbbbbbbbbbbb").store =
      (patchBookingReviewed storeC1 "bbbbbbbbbbbbbbbbbbbbbbbb").store :=
  C1_review_workflow storeC1 "bbbbbbbbbbbbbbbbbbbbbbbb" bookingC1 tutorC1
    (by decide) (by decide) (by decide) (by decide)

/-- Claim C8: when the first write of the review workflow succeeds and the
second (the tutor counter increment) fails with a storage error, the
handler answers 500, the booking stays reviewed=true and the tutor
collection is untouched — no rollback of the first write. -/
theorem C8_second_write_failure (s : Store) (id : String) (b : Booking)
    (hvalid : isValidObjectId id = true)
    (hb : s.bookings.find? (fun x => x._id == normId id) = some b)
    (hunrev : b.reviewed = false) :
    (patchBookingReviewedCore s id true).status = 500 ∧
    ((patchBookingReviewedCore s id true).store.bookings.find?
      (fun x => x._id == normId id)) = some { b with reviewed := true } ∧
    (patchBookingReviewedCore s id true).store.tutors = s.tutors := by
  have hpb : (b._id == normId id) = true := by
    have h := List.find?_some hb
    simpa using h
  have hpb' : (({ b with reviewed := true } : Booking)._id == normId id)
      = true := hpb
  have hbfind := find?_updateOne (fun x => x._id == normId id)
    (fun x => { x with reviewed := true }) s.bookings b hb hpb'
  refine ⟨?_, ?_, ?_⟩ <;>
    simp [patchBookingReviewedCore, hvalid, hb, hunrev, hbfind]

theorem C8_second_write_failure_witness :
    (patchBookingReviewedCore storeC1 "bbbbbbbbbbbbbbbbbbbbbbbb" true).status
      = 500 ∧
    ((patchBookingReviewedCore storeC1 "bbbbbbbbbbbbbbbbbbbbbbbb"
        true).store.bookings.find?
      (fun x => x._id == normId "bbbbbbbbbbbbbbbbbbbbbbbb")) =
      some { bookingC1 with reviewed := true } ∧
    (patchBookingReviewedCore storeC1 "bbbbbbbbbbbbbbbbbbbbbbbb"
      true).store.tutors = storeC1.tutors :=
  C8_second_write_failure storeC1 "bbbbbbbbbbbbbbbbbbbbbbbb" bookingC1
    (by decide) (by decide) (by decide)

/-- Claim C9: an unreviewed booking with a valid id whose tutorId matches
no tutor is still reviewed successfully: 200, the booking's reviewed flag
is set, and no tutor record is modified. -/
theorem C9_dangling_tutor_reference (s : Store) (id : String) (b : Booking)
    (hvalid : isValidObjectId id = true)
    (hb : s.bookings.find? (fun x => x._id == normId id) = some b)
    (hunrev : b.reviewed = false)
    (hdangling : ∀ t ∈ s.tutors, t._id ≠ b.tutorId) :
    (patchBookingReviewed s id).status = 200 ∧
    (patchBookingReviewed s id).store.tutors = s.tutors ∧
    ((patchBookingReviewed s id).store.bookings.find?
      (fun x => x._id == normId id)) = some { b with reviewed := true } := by
  have hall : ∀ t ∈ s.tutors, (t._id == b.tutorId) = false := by
    intro t htm
    simpa using hdangling t htm
  have hupd := updateOne_of_forall_not (fun t => t._id == b.tutorId)
    (fun t => { t with review := t.review + 1 }) s.tutors hall
  have hpb : (b._id == normId id) = true := by
    have h := List.find?_some hb
    simpa using h
  have hpb' : (({ b with reviewed := true } : Booking)._id == normId id)
      = true := hpb
  have hbfind := find?_updateOne (fun x => x._id == normId id)
    (fun x => { x with reviewed := true }) s.bookings b hb hpb'
  refine ⟨?_, ?_, ?_⟩ <;>
    simp [patchBookingReviewed, patchBookingReviewedCore, hvalid, hb,
      hunrev, hupd, hbfind]

def bookingC9 : Booking :=
  ⟨"dddddddddddddddddddddddd", "eeeeeeeeeeeeeeeeeeeeeeee", "u@e.com",
   "2024-01-01", false, 0⟩

def storeC9 : Store := ⟨[tutorC1], [bookingC9], []⟩

theorem C9_dangling_tutor_reference_witness :
    (patchBookingReviewed storeC9 "dddddddddddddddddddddddd").status = 200 ∧
    (patchBookingReviewed storeC9 "dddddddddddddddddddddddd").store.tutors =
      storeC9.tutors ∧
    ((patchBookingReviewed storeC9
        "dddddddddddddddddddddddd").store.bookings.find?
      (fun x => x._id == normId "dddddddddddddddddddddddd")) =
      some { bookingC9 with reviewed := true } :=
  C9_dangling_tutor_reference storeC9 "dddddddddddddddddddddddd" bookingC9
    (by decide) (by decide) (by decide) (by decide)

/-- Claim C5: `GET /bookings/:email` returns exactly the bookings for the
email whose tutorId resolves to an existing tutor, each enriched with that
tutor's tutorName, language, price and image; bookings with a dangling
tutorId are omitted. -/
theorem C5_bookings_join (s : Store) (email : String) (e : EnrichedBooking) :
    e ∈ getBookingsByEmail s email ↔
      ∃ b ∈ s.bookings, ∃ t ∈ s.tutors,
        b.userEmail = email ∧ t._id = b.tutorId ∧ e = enrich b t := by
  simp only [getBookingsByEmail, List.mem_flatMap, List.mem_filter,
    List.mem_map]
  constructor
  · rintro ⟨b, ⟨hbmem, hbem⟩, t, ⟨htmem, htid⟩, rfl⟩
    exact ⟨b, hbmem, t, htmem, by simpa using hbem, by simpa using htid, rfl⟩
  · rintro ⟨b, hbmem, t, htmem, hbem, htid, rfl⟩
    exact ⟨b, ⟨hbmem, by simp [hbem]⟩, t, ⟨htmem, by simp [htid]⟩, rfl⟩

def bookingC5 : Booking :=
  ⟨"bbbbbbbbbbbbbbbbbbbbbbbb", "aaaaaaaaaaaaaaaaaaaaaaaa", "u@e.com",
   "2024-01-01", false, 0⟩

def danglingC5 : Booking :=
  ⟨"dddddddddddddddddddddddd", "eeeeeeeeeeeeeeeeeeeeeeee", "u@e.com",
   "2024-01-02", false, 0⟩

def storeC5 : Store := ⟨[tutorC1], [bookingC5, danglingC5], []⟩

theorem C5_bookings_join_witness :
    enrich bookingC5 tutorC1 ∈ getBookingsByEmail storeC5 "u@e.com" :=
  (C5_bookings_join storeC5 "u@e.com" (enrich bookingC5 tutorC1)).mpr
    ⟨bookingC5, by decide, tutorC1, by decide, by decide, by decide, rfl⟩
